import Mathlib

/-!
Shallow embedding of the gesture-controlled racing game
(vbatecan/innovated-racing-game) for checking its natural-language
specification.  Pure fragments of the Python source are translated into
executable Lean definitions: Python floats become exact rationals,
Python ints become Lean integers, and the `int()` conversion becomes
truncation toward zero (`pyInt`).  Stateful code (the hand controller,
the hazard sprites) is modelled by explicit state passing.
-/

namespace Racing

/-- Python `int()` applied to a real value: truncation toward zero
(floor for non-negative values, ceiling for negative ones). -/
def pyInt (q : ℚ) : ℤ := if q < 0 then ⌈q⌉ else ⌊q⌋

/-! ## Lane / road geometry (src/models/road.py and src/map.py)

`Road.get_lane` partitions a road of pixel width `width` starting at
pixel `x` into `lane_count` lanes.  Both copies of the function
(src/map.py:248 and src/models/road.py:148) compute the same formula.
Configuration constants are taken from src/config.py. -/

/-- Value of `config.MIN_LANE_COUNT` (src/config.py:7). -/
def MIN_LANE_COUNT : ℕ := 1

/-- Value of `config.MAX_LANE_COUNT` (src/config.py:8). -/
def MAX_LANE_COUNT : ℕ := 6

/-- Road width from `config.ROAD_SIZE["width"]` (src/config.py:5). -/
def road_width : ℤ := 700

/-- Road left edge: `(window_width - road_width) // 2` with the window
width 1920 from `config.WINDOW_SIZE` (src/map.py:209). -/
def road_x : ℤ := (1920 - 700) / 2

/-- Immutable lane value (src/models/lane.py). -/
structure Lane where
  index : ℤ
  left : ℤ
  right : ℤ
deriving DecidableEq, Repr

/-- Lane pixel width `max(1, right - left)` (src/models/lane.py:13). -/
def Lane.width (l : Lane) : ℤ := max 1 (l.right - l.left)

/-- `Road.lane_width`: `self.width / float(self.lane_count)`
(src/models/road.py:146). -/
def lane_width (width : ℤ) (lane_count : ℕ) : ℚ :=
  (width : ℚ) / (lane_count : ℚ)

/-- `Road.get_lane` (src/models/road.py:148-164, identical in
src/map.py:248-264): clamp the index, place lane boundaries at
truncated multiples of the fractional lane width, and snap the final
lane's right boundary to the road's right edge. -/
def get_lane (x width : ℤ) (lane_count : ℕ) (lane_index : ℤ) : Lane :=
  let clamped_index : ℤ := max 0 (min lane_index ((lane_count : ℤ) - 1))
  let lane_w : ℚ := lane_width width lane_count
  let left : ℤ := pyInt ((x : ℚ) + (clamped_index : ℚ) * lane_w)
  let right0 : ℤ := pyInt ((x : ℚ) + ((clamped_index : ℚ) + 1) * lane_w)
  let right : ℤ := if clamped_index = (lane_count : ℤ) - 1 then x + width else right0
  { index := clamped_index, left := left, right := right }

/-! ## Gesture controller (src/controller.py)

The `Controller` class owns the derived control fields listed in
`__init__` (src/controller.py:36-56).  The per-frame processing entry
point is `_draw_annotations_internal` (src/controller.py:402-432); the
camera, MediaPipe and drawing calls are external I/O and are not part
of the control-state semantics. -/

/-- Normalized hand landmark `(x, y)` as delivered by the detector. -/
structure Landmark where
  x : ℚ
  y : ℚ

/-- Detected hand: 21 landmarks indexed by the MediaPipe skeletal
topology (wrist = 0, index tip = 8, ...).  Indexing is total here;
the game only reads indices 0-20. -/
def Hand : Type := ℕ → Landmark

/-- Handedness label attached to a detected hand
(`category_name.lower()` in `_resolve_left_right_hands`,
src/controller.py:163-183); `none` models an empty classification
list. -/
inductive HandLabel where
  | left
  | right
  | other
deriving DecidableEq, Repr

/-- Mutable control fields of `Controller` (src/controller.py:36-56)
that participate in gesture-derived control state. -/
structure ControllerState where
  steer : ℚ
  breaking : Bool
  boosting : Bool
  shift_up_requested : Bool
  shift_down_requested : Bool
  left_shift_active : Bool
  right_shift_active : Bool
  prev_left_shift_active : Bool
  prev_right_shift_active : Bool
  swipe_up_detected : Bool
  swipe_down_detected : Bool
  question_select_requested : Bool
  prev_question_select_active : Bool
  prev_right_hand_y : Option ℚ
  require_two_hands : Bool

/-- Defaults set in `Controller.__init__` (src/controller.py:36-56). -/
def initial_controller : ControllerState where
  steer := 0
  breaking := false
  boosting := false
  shift_up_requested := false
  shift_down_requested := false
  left_shift_active := false
  right_shift_active := false
  prev_left_shift_active := false
  prev_right_shift_active := false
  swipe_up_detected := false
  swipe_down_detected := false
  question_select_requested := false
  prev_question_select_active := false
  prev_right_hand_y := none
  require_two_hands := true

/-- `Controller._reset_controls` (src/controller.py:142-161).  Note
that `boosting` is not among the fields it assigns. -/
def reset_controls (s : ControllerState) : ControllerState :=
  { s with
    steer := 0
    breaking := false
    shift_up_requested := false
    shift_down_requested := false
    left_shift_active := false
    right_shift_active := false
    prev_left_shift_active := false
    prev_right_shift_active := false
    swipe_up_detected := false
    swipe_down_detected := false
    question_select_requested := false
    prev_question_select_active := false
    prev_right_hand_y := none }

/-- `Controller._is_index_only` (src/controller.py:192-207): index
finger fully extended (tip above pip above mcp, y grows downward) and
at least 2 of middle/ring/pinky curled (tip below pip). -/
def is_index_only (h : Hand) : Bool :=
  let index_extended := decide ((h 8).y < (h 6).y) && decide ((h 6).y < (h 5).y)
  let curled_count :=
    ([(12, 10), (16, 14), (20, 18)] : List (ℕ × ℕ)).countP
      (fun p => decide ((h p.1).y > (h p.2).y))
  index_extended && decide (curled_count ≥ 2)

/-- `Controller._is_thumb_up` (src/controller.py:209-221). -/
def is_thumb_up (h : Hand) : Bool :=
  let thumb_up := decide ((h 4).y < (h 2).y)
  let curled :=
    ([(8, 6), (12, 10), (16, 14), (20, 18)] : List (ℕ × ℕ)).countP
      (fun p => decide ((h p.1).y > (h p.2).y))
  thumb_up && decide (curled ≥ 3)

/-- `Controller._is_index_closed` (src/controller.py:223-228). -/
def is_index_closed (h : Hand) : Bool :=
  decide ((h 8).y > (h 6).y + 1/100)

/-- `Controller._compute_steer` (src/controller.py:248-254): wrist
slope with a 1e-6 epsilon in the denominator, clamped to [-5, 5]. -/
def compute_steer (left_wrist right_wrist : Landmark) : ℚ :=
  let slope := (right_wrist.y - left_wrist.y) /
    (right_wrist.x - left_wrist.x + 1/1000000)
  max (-5) (min 5 slope)

/-- `Controller._update_shift_state` (src/controller.py:230-246):
sustained poses are recomputed each frame; one-shot requests are the
rising edges against the previous frame's poses. -/
def update_shift_state (s : ControllerState) (left_hand right_hand : Hand) :
    ControllerState :=
  let lsa := is_index_only left_hand
  let rsa := is_index_only right_hand
  { s with
    left_shift_active := lsa
    right_shift_active := rsa
    shift_down_requested := lsa && !s.prev_left_shift_active
    shift_up_requested := rsa && !s.prev_right_shift_active
    prev_left_shift_active := lsa
    prev_right_shift_active := rsa }

/-- Value of `Controller.swipe_threshold` (src/controller.py:55). -/
def swipe_threshold : ℚ := 1/50

/-- `Controller._detect_swipes` (src/controller.py:322-342): compare
the tracked hand's wrist y to the previous frame's sample. -/
def detect_swipes (s : ControllerState) (hand : Hand) : ControllerState :=
  let current_y := (hand 0).y
  let s1 := { s with swipe_up_detected := false, swipe_down_detected := false }
  let s2 :=
    match s1.prev_right_hand_y with
    | none => s1
    | some prev =>
      let delta_y := prev - current_y
      if delta_y > swipe_threshold then { s1 with swipe_up_detected := true }
      else if delta_y < -swipe_threshold then { s1 with swipe_down_detected := true }
      else s1
  { s2 with prev_right_hand_y := some current_y }

/-- `Controller._resolve_left_right_hands` (src/controller.py:163-183):
handedness labels override the detector-order fallback
`(hands[0], hands[1])` when at least two labels are present. -/
def resolve_left_right_hands (hands : List Hand)
    (handedness : List (Option HandLabel)) : Hand × Hand :=
  let default_hand : Hand := fun _ => { x := 0, y := 0 }
  let idx :=
    if 2 ≤ handedness.length then
      (handedness.enum).foldl
        (fun (acc : ℕ × ℕ) (p : ℕ × Option HandLabel) =>
          match p.2 with
          | some HandLabel.left => (p.1, acc.2)
          | some HandLabel.right => (acc.1, p.1)
          | _ => acc)
        (0, 1)
    else (0, 1)
  (hands.getD idx.1 default_hand, hands.getD idx.2 default_hand)

/-- `Controller._process_two_hands` (src/controller.py:344-361).
`breaking` is computed from the *previous* frame's sustained shift
poses (read before `_update_shift_state` reassigns them), and the
published steer is forced to 0 while braking. -/
def process_two_hands (s : ControllerState) (left_hand right_hand : Hand) :
    ControllerState :=
  let left_wrist := left_hand 0
  let right_wrist := right_hand 0
  let s1 := { s with breaking := !s.left_shift_active && !s.right_shift_active }
  let s2 := update_shift_state s1 left_hand right_hand
  let s3 := { s2 with boosting := is_thumb_up left_hand }
  let s4 := detect_swipes s3 right_hand
  let normalized_slope := compute_steer left_wrist right_wrist
  { s4 with steer := if s4.breaking then 0 else normalized_slope }

/-- `Controller._process_question_hands` (src/controller.py:363-400). -/
def process_question_hands (s : ControllerState) (hands : List Hand) :
    ControllerState :=
  match hands with
  | [] =>
    { s with
      swipe_up_detected := false
      swipe_down_detected := false
      question_select_requested := false
      prev_question_select_active := false
      prev_right_hand_y := none }
  | primary_hand :: _ =>
    let s1 := detect_swipes s primary_hand
    let index_closed := hands.any is_index_closed
    let s2 :=
      { s1 with
        question_select_requested := index_closed && !s1.prev_question_select_active
        prev_question_select_active := index_closed }
    { s2 with
      steer := 0
      breaking := false
      shift_up_requested := false
      shift_down_requested := false
      left_shift_active := false
      right_shift_active := false
      boosting := false }

/-- `Controller._draw_annotations_internal` (src/controller.py:402-432):
the per-frame gate.  A frame with no result/no hands, or a wrong hand
count while two hands are required, resets the controls; otherwise the
matching processing mode runs. -/
def draw_annotations_internal (s : ControllerState) (hands : List Hand)
    (handedness : List (Option HandLabel)) : ControllerState :=
  if hands.isEmpty then reset_controls s
  else if s.require_two_hands && hands.length != 2 then reset_controls s
  else if s.require_two_hands then
    let lr := resolve_left_right_hands hands handedness
    process_two_hands s lr.1 lr.2
  else process_question_hands s hands

/-- `Controller.consume_shift_request` (src/controller.py:434-445):
return `(down, up)` and clear both one-shot flags. -/
def consume_shift_request (s : ControllerState) :
    (Bool × Bool) × ControllerState :=
  ((s.shift_down_requested, s.shift_up_requested),
    { s with shift_down_requested := false, shift_up_requested := false })

/-! ## Hazard kinematics (src/map.py and src/models/)

Each hazard sprite keeps a float `_y_pos` for sub-pixel accuracy and an
integer `rect.y := int(_y_pos)`.  The `update` methods below return the
new float position (plus derived fields) together with the off-screen
kill decision.  The repository contains two different `Obstacle.update`
implementations: the one in src/map.py:71-97 and the one in
src/models/obstacle.py:50-77. -/

/-- Kinematic fields of a traffic `Obstacle` sprite (constructor in
src/map.py:28-69 / src/models/obstacle.py:4-48). -/
structure Obstacle where
  y_pos : ℚ
  height : ℤ
  speed : ℚ
  traffic_speed : ℚ
  direction_factor : ℚ

/-- `Obstacle.update` from src/map.py:71-97: blended relative speed
`clamp(traffic_speed + 0.2 * player_speed, 1, 24)`, direction factor
eased toward -1 while braking (+1 otherwise) by the 0.18 smoothing
step, position advanced by `speed * direction_factor`.  The returned
Bool is the off-screen kill decision. -/
def Obstacle.update_map (o : Obstacle) (player_speed : ℚ)
    (screen_height : ℤ) (is_braking : Bool) : Obstacle × Bool :=
  let blended_speed := o.traffic_speed + (2/10) * player_speed
  let speed := max 1 (min 24 blended_speed)
  let target_direction : ℚ := if is_braking then -1 else 1
  let direction_factor :=
    o.direction_factor + (target_direction - o.direction_factor) * (18/100)
  let y_pos := o.y_pos + speed * direction_factor
  let top := pyInt y_pos
  let kill := decide (top > screen_height + o.height) ||
    decide (top + o.height < -o.height)
  ({ o with y_pos := y_pos, speed := speed, direction_factor := direction_factor },
    kill)

/-- `Obstacle.update` from src/models/obstacle.py:50-77: signed
relative speed `capped_player_speed - min(traffic_speed, 24)`, screen
speed `min(24, |relative_speed|)` (no braking parameter and no lower
clamp at 1), direction from the sign of the relative speed. -/
def Obstacle.update_models (o : Obstacle) (player_speed : ℚ)
    (screen_height : ℤ) : Obstacle × Bool :=
  let capped_player_speed := max 0 player_speed
  let traffic_world_speed := min o.traffic_speed 24
  let relative_speed := capped_player_speed - traffic_world_speed
  let speed := min 24 |relative_speed|
  let target_direction : ℚ := if 0 ≤ relative_speed then 1 else -1
  let direction_factor :=
    o.direction_factor + (target_direction - o.direction_factor) * (18/100)
  let y_pos := o.y_pos + speed * direction_factor
  let top := pyInt y_pos
  let kill := decide (top > screen_height + o.height) ||
    decide (top + o.height < -o.height)
  ({ o with y_pos := y_pos, speed := speed, direction_factor := direction_factor },
    kill)

/-- `Crack.update` (src/map.py:125-135): frozen in place while braking,
otherwise advanced by `max(1, map_speed)`; killed when fully below the
screen. -/
def Crack.update (y_pos : ℚ) (height : ℤ) (map_speed : ℚ)
    (screen_height : ℤ) (is_braking : Bool) : ℚ × Bool :=
  if is_braking then (y_pos, false)
  else
    let y := y_pos + max 1 map_speed
    (y, decide (pyInt y > screen_height + height))

/-- `BRHazard.update` (src/map.py:165-174): same freeze-or-advance rule
as `Crack.update`. -/
def BRHazard.update (y_pos : ℚ) (height : ℤ) (map_speed : ℚ)
    (screen_height : ℤ) (is_braking : Bool) : ℚ × Bool :=
  if is_braking then (y_pos, false)
  else
    let y := y_pos + max 1 map_speed
    (y, decide (pyInt y > screen_height + height))

/-- `OilSpill.update` (src/models/oil_spill.py:27-31): advances by
`max(0.0, map_speed)` every call; the signature has no braking
parameter. -/
def OilSpill.update (y_pos : ℚ) (height : ℤ) (map_speed : ℚ)
    (screen_height : ℤ) : ℚ × Bool :=
  let y := y_pos + max 0 map_speed
  (y, decide (pyInt y > screen_height + height))

/-! ## Spawn overlap-avoidance search
(src/environment/br_manager.py:73-114 and
src/environment/obstacle_manager.py:137-213)

Both managers run `for _ in range(10)` sampling one candidate per
iteration and breaking on the first candidate that neither overlaps a
same-class sprite nor an x-overlapping sprite of a blocking group.
The random sampling is modelled by an explicit candidate stream
`cand : ℕ → SpawnCandidate`: iteration `i` of the loop draws
`cand i`, and the `for`-`else` re-sample in the obstacle manager draws
`cand 10`. -/

/-- Bounding data of an existing sprite used by the spawn search
(`sprite.rect.left/right/y`). -/
structure SpriteRect where
  left : ℤ
  right : ℤ
  y : ℤ
deriving DecidableEq, Repr

/-- One sampled spawn attempt: position `(x, y)` and sprite size. -/
structure SpawnCandidate where
  x : ℤ
  y : ℤ
  w : ℤ
  h : ℤ
deriving DecidableEq, Repr

/-- Overlap test of one spawn candidate against the manager's own
sprites and its blocking groups
(src/environment/br_manager.py:88-109, identically
src/environment/obstacle_manager.py:163-187): a same-class sprite
blocks when the x-ranges overlap and the vertical distance is within
3 sprite heights; a blocking-group sprite blocks on x-overlap alone. -/
def spawn_overlap (existing blocking : List SpriteRect)
    (c : SpawnCandidate) : Bool :=
  existing.any (fun r =>
    decide (r.left < c.x + c.w) && decide (r.right > c.x) &&
      decide (|r.y - c.y| < c.h * 3)) ||
  blocking.any (fun r =>
    decide (c.x < r.right) && decide (c.x + c.w > r.left))

/-- Index of the candidate the `for` loop ends on: iteration `i` with
`remaining` iterations left (including this one) keeps `cand i` when it
does not overlap (the `break`), or when it is the final iteration; the
loop starts at `spawn_choose ... 0 10`. -/
def spawn_choose (existing blocking : List SpriteRect)
    (cand : ℕ → SpawnCandidate) : ℕ → ℕ → ℕ
  | i, 0 => i
  | i, remaining + 1 =>
    if spawn_overlap existing blocking (cand i) then
      if remaining = 0 then i
      else spawn_choose existing blocking cand (i + 1) remaining
    else i

/-- `BRManager._spawn_br` placement
(src/environment/br_manager.py:73-114): the hazard is created from the
variables left by the search loop, i.e. from the candidate the loop
ended on — the first non-overlapping one, or attempt 9 when all 10
overlap. -/
def spawn_br (existing blocking : List SpriteRect)
    (cand : ℕ → SpawnCandidate) : SpawnCandidate :=
  cand (spawn_choose existing blocking cand 0 10)

/-- `ObstacleManager._spawn_obstacle` placement
(src/environment/obstacle_manager.py:137-213): same search loop, but
the `for`-`else` branch (lines 190-201) re-samples a fresh candidate —
modelled as `cand 10` — when all 10 attempts overlapped. -/
def spawn_obstacle (existing blocking : List SpriteRect)
    (cand : ℕ → SpawnCandidate) : SpawnCandidate :=
  let j := spawn_choose existing blocking cand 0 10
  if spawn_overlap existing blocking (cand j) then cand 10 else cand j

/-! ## Map border interpolation (src/models/road.py) -/

/-- `Road._apply_interpolated_borders` (src/models/road.py:114-123) for
one border coordinate: clamp the progress to [0, 1] and linearly
interpolate between the from-map and to-map border, truncating with
`int()`. -/
def apply_interpolated_border (from_border to_border : ℤ) (progress : ℚ) : ℤ :=
  let blend := max 0 (min 1 progress)
  pyInt ((from_border : ℚ) + ((to_border : ℚ) - (from_border : ℚ)) * blend)

/-! ## Concrete sample values used to exercise the definitions -/

/-- Hand holding the index-only shift pose: index tip above pip above
mcp, middle/ring/pinky tips below their pips, everything else at the
hand's resting height. -/
def index_only_hand : Hand := fun i =>
  { x := 1/2
    y :=
      if i = 8 then 1/5
      else if i = 6 then 3/10
      else if i = 5 then 2/5
      else if i = 12 ∨ i = 16 ∨ i = 20 then 3/5
      else 1/2 }

/-- Hand without the shift pose: the index tip hangs below its pip. -/
def open_hand : Hand := fun i =>
  { x := 1/2
    y := if i = 8 then 3/5 else 1/2 }

/-- Interpret an abstract pose flag as one of the two sample hands. -/
def pose_hand (active : Bool) : Hand :=
  if active then index_only_hand else open_hand

/-- Run `_update_shift_state` over a sequence of left-hand pose flags
(right hand held inactive) and record `shift_down_requested` after each
frame. -/
def shift_down_trace (s : ControllerState) : List Bool → List Bool
  | [] => []
  | b :: rest =>
    let s1 := update_shift_state s (pose_hand b) (pose_hand false)
    s1.shift_down_requested :: shift_down_trace s1 rest

/-- Controller state with a stale boost flag. -/
def s_boost : ControllerState := { initial_controller with boosting := true }

/-- Controller state whose previous frame held the left shift pose. -/
def s_left_shift : ControllerState :=
  { initial_controller with left_shift_active := true }

/-- Left wrist of the end-to-end steering scenario. -/
def left_wrist_demo : Landmark := { x := 3/10, y := 1/2 }

/-- Right wrist of the end-to-end steering scenario. -/
def right_wrist_demo : Landmark := { x := 7/10, y := 3/10 }

/-- Traffic obstacle with `traffic_speed = 2.0` shortly after spawn. -/
def o_demo : Obstacle :=
  { y_pos := 0, height := 30, speed := 1, traffic_speed := 2, direction_factor := 1 }

/-- One existing sprite wide enough to overlap every spawn attempt. -/
def existing_demo : List SpriteRect := [{ left := -1000, right := 1000, y := 0 }]

/-- Candidate stream whose attempts land at distinct x positions. -/
def cand_demo : ℕ → SpawnCandidate := fun i => { x := i, y := 0, w := 5, h := 5 }

/-! ## Helper lemmas -/

theorem pyInt_intCast (n : ℤ) : pyInt (n : ℚ) = n := by
  unfold pyInt
  split <;> simp

theorem pyInt_mono {p q : ℚ} (h : p ≤ q) : pyInt p ≤ pyInt q := by
  unfold pyInt
  split <;> split
  case isTrue.isTrue => exact Int.ceil_le_ceil h
  case isTrue.isFalse hp hq =>
    calc ⌈p⌉ ≤ ⌈(0 : ℚ)⌉ := Int.ceil_le_ceil (le_of_lt hp)
      _ = 0 := by simp
      _ ≤ ⌊q⌋ := Int.floor_nonneg.mpr (not_lt.mp hq)
  case isFalse.isTrue hp hq => exact absurd (lt_of_le_of_lt h hq) hp
  case isFalse.isFalse => exact Int.floor_le_floor h

theorem detect_swipes_breaking (s : ControllerState) (h : Hand) :
    (detect_swipes s h).breaking = s.breaking := by
  unfold detect_swipes
  rcases hp : s.prev_right_hand_y with _ | prev
  · simp only [hp]
  · simp only [hp]
    split
    · rfl
    · split <;> rfl

theorem detect_swipes_steer (s : ControllerState) (h : Hand) :
    (detect_swipes s h).steer = s.steer := by
  unfold detect_swipes
  rcases hp : s.prev_right_hand_y with _ | prev
  · simp only [hp]
  · simp only [hp]
    split
    · rfl
    · split <;> rfl

theorem process_two_hands_breaking (s : ControllerState) (lh rh : Hand) :
    (process_two_hands s lh rh).breaking
      = (!s.left_shift_active && !s.right_shift_active) := by
  unfold process_two_hands
  simp only [detect_swipes_breaking]
  rfl

theorem process_two_hands_steer (s : ControllerState) (lh rh : Hand) :
    (process_two_hands s lh rh).steer
      = if (!s.left_shift_active && !s.right_shift_active) = true then 0
        else compute_steer (lh 0) (rh 0) := by
  unfold process_two_hands
  simp only [detect_swipes_breaking]
  rfl

theorem spawn_choose_lt (existing blocking : List SpriteRect)
    (cand : ℕ → SpawnCandidate) :
    ∀ r i, 0 < r → spawn_choose existing blocking cand i r < i + r := by
  intro r
  induction r with
  | zero => omega
  | succ n ih =>
    intro i _
    unfold spawn_choose
    split
    · split
      · omega
      · have hn : 0 < n := Nat.pos_of_ne_zero (by assumption)
        have := ih (i + 1) hn
        omega
    · omega

theorem spawn_choose_all_overlap (existing blocking : List SpriteRect)
    (cand : ℕ → SpawnCandidate) :
    ∀ r i, 0 < r →
      (∀ j, i ≤ j → j < i + r → spawn_overlap existing blocking (cand j) = true) →
      spawn_choose existing blocking cand i r = i + r - 1 := by
  intro r
  induction r with
  | zero => omega
  | succ n ih =>
    intro i _ hall
    unfold spawn_choose
    rw [if_pos (hall i (le_refl i) (by omega))]
    rcases Nat.eq_zero_or_pos n with hn | hn
    · subst hn; simp
    · rw [if_neg (Nat.pos_iff_ne_zero.mp hn)]
      have := ih (i + 1) hn (fun j h1 h2 => hall j (by omega) (by omega))
      omega

theorem is_index_only_index_only_hand : is_index_only index_only_hand = true := by
  norm_num [is_index_only, index_only_hand, List.countP, List.countP.go]

theorem is_index_only_open_hand : is_index_only open_hand = false := by
  norm_num [is_index_only, open_hand, List.countP, List.countP.go]

/-! ## Claim theorems -/

/-- C1 (counterexample): the repository's two `Obstacle.update`
implementations do not both use the blend formula, and the blend
formula does not clamp to 24 at `player_speed = 100`.  With
`traffic_speed = 2` the src/models/obstacle.py update at
`player_speed = 10` sets speed `min(24, |10 - 2|) = 8`, not
`clamp(2 + 0.2*10, 1, 24) = 4`; and the src/map.py update at
`player_speed = 100` sets speed `clamp(2 + 20, 1, 24) = 22`, not 24. -/
theorem c1_counterexample :
    (Obstacle.update_models o_demo 10 1080).1.speed
        ≠ max 1 (min 24 (o_demo.traffic_speed + (2/10) * 10)) ∧
    (Obstacle.update_map o_demo 100 1080 false).1.speed ≠ 24 := by
  constructor <;>
    norm_num [Obstacle.update_models, Obstacle.update_map, o_demo]

/-- C1 (amended): the src/map.py traffic update sets the screen speed
to `clamp(traffic_speed + 0.2 * player_speed, 1, 24)`, while the
src/models/obstacle.py update sets it to
`min(24, |max(0, player_speed) - min(traffic_speed, 24)|)`.  With
`player_speed = 0`, `traffic_speed = 2.0` both yield 2.0; with
`player_speed = 100` the map.py blend yields 22 while the models
variant clamps to 24. -/
theorem c1_speed_blend_amended :
    (∀ (o : Obstacle) (ps : ℚ) (sh : ℤ) (b : Bool),
      (Obstacle.update_map o ps sh b).1.speed
        = max 1 (min 24 (o.traffic_speed + (2/10) * ps))) ∧
    (∀ (o : Obstacle) (ps : ℚ) (sh : ℤ),
      (Obstacle.update_models o ps sh).1.speed
        = min 24 |max 0 ps - min o.traffic_speed 24|) ∧
    (Obstacle.update_map o_demo 0 1080 false).1.speed = 2 ∧
    (Obstacle.update_models o_demo 0 1080).1.speed = 2 ∧
    (Obstacle.update_map o_demo 100 1080 false).1.speed = 22 ∧
    (Obstacle.update_models o_demo 100 1080).1.speed = 24 := by
  refine ⟨fun o ps sh b => rfl, fun o ps sh => rfl, ?_, ?_, ?_, ?_⟩ <;>
    norm_num [Obstacle.update_map, Obstacle.update_models, o_demo]

/-- C2 (counterexample): a frame with zero detected hands does not
reset `boosting`: `_reset_controls` never assigns it, so a stale
`boosting = true` survives the tick, contradicting the claim that
every control field is reset to neutral. -/
theorem c2_counterexample :
    (draw_annotations_internal s_boost [] []).boosting = true := rfl

/-- C2 (amended): whenever a frame arrives with zero detected hands,
or with a hand count other than 2 while two hands are required, the
controller runs `_reset_controls`, which neutralises steer, braking,
both one-shot shift requests, both sustained shift poses, and the
swipe/question-select flags within that tick — but leaves `boosting`
at its previous value. -/
theorem c2_neutral_reset_amended (s : ControllerState) (hands : List Hand)
    (handedness : List (Option HandLabel))
    (h : hands = [] ∨ (s.require_two_hands = true ∧ hands.length ≠ 2)) :
    draw_annotations_internal s hands handedness = reset_controls s ∧
    (reset_controls s).steer = 0 ∧
    (reset_controls s).breaking = false ∧
    (reset_controls s).shift_up_requested = false ∧
    (reset_controls s).shift_down_requested = false ∧
    (reset_controls s).left_shift_active = false ∧
    (reset_controls s).right_shift_active = false ∧
    (reset_controls s).swipe_up_detected = false ∧
    (reset_controls s).swipe_down_detected = false ∧
    (reset_controls s).question_select_requested = false ∧
    (reset_controls s).boosting = s.boosting := by
  refine ⟨?_, rfl, rfl, rfl, rfl, rfl, rfl, rfl, rfl, rfl, rfl⟩
  unfold draw_annotations_internal
  rcases h with h | ⟨hreq, hlen⟩
  · subst h; rfl
  · by_cases he : hands.isEmpty
    · simp [he]
    · have : (hands.length != 2) = true := by
        simpa using hlen
      simp [he, hreq, this]

theorem c2_neutral_reset_amended_witness :
    draw_annotations_internal s_boost [] [] = reset_controls s_boost ∧
    (reset_controls s_boost).steer = 0 ∧
    (reset_controls s_boost).breaking = false ∧
    (reset_controls s_boost).shift_up_requested = false ∧
    (reset_controls s_boost).shift_down_requested = false ∧
    (reset_controls s_boost).left_shift_active = false ∧
    (reset_controls s_boost).right_shift_active = false ∧
    (reset_controls s_boost).swipe_up_detected = false ∧
    (reset_controls s_boost).swipe_down_detected = false ∧
    (reset_controls s_boost).question_select_requested = false ∧
    (reset_controls s_boost).boosting = s_boost.boosting :=
  c2_neutral_reset_amended s_boost [] [] (Or.inl rfl)

/-- C4 (counterexample): `OilSpill.update` advances by
`max(0, map_speed)`, not `max(1, map_speed)`: with `map_speed = 0` and
braking inactive the oil spill does not move at all, while the claim
requires an advance of exactly `max(1, 0) = 1` for every non-traffic
hazard. -/
theorem c4_counterexample :
    (OilSpill.update 0 20 0 1080).1 = 0 ∧
    (0 : ℚ) + max 1 (0 : ℚ) = 1 ∧
    (OilSpill.update 0 20 0 1080).1 ≠ (0 : ℚ) + max 1 (0 : ℚ) := by
  refine ⟨?_, ?_, ?_⟩ <;> norm_num [OilSpill.update]

/-- C4 (amended): cracks and BR hazards advance by exactly
`max(1, map_speed)` when braking is inactive and are completely frozen
while braking; oil spills instead advance by `max(0, map_speed)` on
every update, and their update takes no braking flag at all, so they
have no braking freeze. -/
theorem c4_hazard_motion_amended :
    (∀ (y : ℚ) (h : ℤ) (ms : ℚ) (sh : ℤ),
      (Crack.update y h ms sh true).1 = y) ∧
    (∀ (y : ℚ) (h : ℤ) (ms : ℚ) (sh : ℤ),
      (Crack.update y h ms sh false).1 = y + max 1 ms) ∧
    (∀ (y : ℚ) (h : ℤ) (ms : ℚ) (sh : ℤ),
      (BRHazard.update y h ms sh true).1 = y) ∧
    (∀ (y : ℚ) (h : ℤ) (ms : ℚ) (sh : ℤ),
      (BRHazard.update y h ms sh false).1 = y + max 1 ms) ∧
    (∀ (y : ℚ) (h : ℤ) (ms : ℚ) (sh : ℤ),
      (OilSpill.update y h ms sh).1 = y + max 0 ms) :=
  ⟨fun _ _ _ _ => rfl, fun _ _ _ _ => rfl, fun _ _ _ _ => rfl,
    fun _ _ _ _ => rfl, fun _ _ _ _ => rfl⟩

/-- C5 (confirmed): shift requests have rising-edge semantics — a
request fires exactly when the index-only pose is active this frame
and was not active on the previous frame — and over the pose sequence
[inactive, active, active, inactive, active] the down-shift request
fires only at indices 1 and 4, never at index 2. -/
theorem c5_rising_edge :
    (∀ (s : ControllerState) (lh rh : Hand),
      (update_shift_state s lh rh).shift_down_requested
        = (is_index_only lh && !s.prev_left_shift_active) ∧
      (update_shift_state s lh rh).shift_up_requested
        = (is_index_only rh && !s.prev_right_shift_active)) ∧
    shift_down_trace initial_controller [false, true, true, false, true]
      = [false, true, false, false, true] := by
  refine ⟨fun s lh rh => ⟨rfl, rfl⟩, ?_⟩
  simp [shift_down_trace, update_shift_state, pose_hand, initial_controller,
    is_index_only_index_only_hand, is_index_only_open_hand]

/-- C6 (confirmed): `consume_shift_request` returns the current
(down, up) request pair and clears both flags, so an immediate second
call returns (false, false). -/
theorem c6_consume_read_and_clear (s : ControllerState) :
    (consume_shift_request s).1
      = (s.shift_down_requested, s.shift_up_requested) ∧
    (consume_shift_request (consume_shift_request s).2).1 = (false, false) :=
  ⟨rfl, rfl⟩

/-- C3 (confirmed): for every lane count in
[MIN_LANE_COUNT, MAX_LANE_COUNT], `get_lane` on the configured road
(left edge 610, width 700) produces contiguous, non-overlapping,
gap-free intervals: lane 0 starts at the road's left edge, each lane's
right boundary is the next lane's left boundary, the final lane's
right boundary is the road's right edge, and the lane widths sum
exactly to the road width. -/
theorem c3_lane_partition (n : ℕ) (h1 : MIN_LANE_COUNT ≤ n)
    (h2 : n ≤ MAX_LANE_COUNT) :
    (get_lane road_x road_width n 0).left = road_x ∧
    (∀ i : ℕ, i < n - 1 →
      (get_lane road_x road_width n (i : ℤ)).right
        = (get_lane road_x road_width n ((i : ℤ) + 1)).left) ∧
    (get_lane road_x road_width n ((n : ℤ) - 1)).right = road_x + road_width ∧
    (∑ i ∈ Finset.range n, (get_lane road_x road_width n (i : ℤ)).width)
      = road_width := by
  norm_num [MIN_LANE_COUNT, MAX_LANE_COUNT] at h1 h2
  interval_cases n <;>
    refine ⟨by norm_num [get_lane, lane_width, pyInt, road_x, road_width],
      fun i hi => ?_,
      by norm_num [get_lane, lane_width, pyInt, road_x, road_width],
      by norm_num [get_lane, lane_width, pyInt, Lane.width, road_x, road_width,
        Finset.sum_range_succ]⟩ <;>
    interval_cases i <;>
    norm_num [get_lane, lane_width, pyInt, road_x, road_width]

theorem c3_lane_partition_witness :
    MIN_LANE_COUNT ≤ 3 ∧ 3 ≤ MAX_LANE_COUNT ∧
    ((get_lane road_x road_width 3 0).left = road_x ∧
    (∀ i : ℕ, i < 3 - 1 →
      (get_lane road_x road_width 3 (i : ℤ)).right
        = (get_lane road_x road_width 3 ((i : ℤ) + 1)).left) ∧
    (get_lane road_x road_width 3 ((3 : ℤ) - 1)).right = road_x + road_width ∧
    (∑ i ∈ Finset.range 3, (get_lane road_x road_width 3 (i : ℤ)).width)
      = road_width) :=
  ⟨by decide, by decide, c3_lane_partition 3 (by decide) (by decide)⟩

/-- C7 (counterexample): when all 10 overlap-avoidance attempts fail,
`ObstacleManager._spawn_obstacle` does not place the hazard at the
last attempted position: its `for`-`else` branch re-samples a fresh
candidate instead.  Against a sprite spanning the whole road every
attempt overlaps, and the spawned candidate differs from attempt 9. -/
theorem c7_counterexample :
    (∀ j, j < 10 → spawn_overlap existing_demo [] (cand_demo j) = true) ∧
    spawn_obstacle existing_demo [] cand_demo ≠ cand_demo 9 := by
  constructor <;> decide

/-- C7 (amended): every spawn search checks at most 10 candidates and
always spawns a hazard; when all 10 attempts fail,
`BRManager._spawn_br` spawns at the last attempted position while
`ObstacleManager._spawn_obstacle` spawns at a freshly re-sampled
position (an 11th candidate) instead of the last attempted one. -/
theorem c7_spawn_search_amended :
    (∀ (existing blocking : List SpriteRect) (cand : ℕ → SpawnCandidate),
      spawn_choose existing blocking cand 0 10 < 10) ∧
    (∀ (existing blocking : List SpriteRect) (cand : ℕ → SpawnCandidate),
      (∀ j, j < 10 → spawn_overlap existing blocking (cand j) = true) →
      spawn_br existing blocking cand = cand 9 ∧
      spawn_obstacle existing blocking cand = cand 10) := by
  constructor
  · intro existing blocking cand
    simpa using spawn_choose_lt existing blocking cand 10 0 (by omega)
  · intro existing blocking cand hall
    have hc : spawn_choose existing blocking cand 0 10 = 9 := by
      simpa using spawn_choose_all_overlap existing blocking cand 10 0 (by omega)
        (fun j _ hj => hall j (by omega))
    refine ⟨?_, ?_⟩
    · unfold spawn_br
      rw [hc]
    · unfold spawn_obstacle
      simp only [hc]
      rw [if_pos (hall 9 (by omega))]

theorem c7_spawn_search_amended_witness :
    (∀ j, j < 10 → spawn_overlap existing_demo [] (cand_demo j) = true) ∧
    spawn_br existing_demo [] cand_demo = cand_demo 9 ∧
    spawn_obstacle existing_demo [] cand_demo = cand_demo 10 :=
  ⟨by decide,
    c7_spawn_search_amended.2 existing_demo [] cand_demo (by decide)⟩

/-- C8 (counterexample): with left wrist (0.3, 0.5) and right wrist
(0.7, 0.3) the steering slope is not exactly -0.5: the 1e-6 epsilon in
the denominator makes it -200000/400001 ≈ -0.4999988. -/
theorem c8_counterexample :
    compute_steer left_wrist_demo right_wrist_demo ≠ -(1/2) ∧
    compute_steer left_wrist_demo right_wrist_demo = -(200000/400001) := by
  constructor <;>
    norm_num [compute_steer, left_wrist_demo, right_wrist_demo]

/-- C8 (amended): for every pair of wrists the steering slope is
`clamp((rightWrist.y - leftWrist.y) / (rightWrist.x - leftWrist.x + 1e-6), -5, 5)`,
and the denominator is nonzero when the wrists are horizontally
aligned, so no division fault can arise there; for left wrist
(0.3, 0.5) and right wrist (0.7, 0.3) the slope is -200000/400001,
within 1e-5 of -0.5, and this slope is published as the steer value
whenever braking is inactive (e.g. while a shift pose is held). -/
theorem c8_steer_slope_amended :
    (∀ lw rw : Landmark, compute_steer lw rw
      = max (-5) (min 5 ((rw.y - lw.y) / (rw.x - lw.x + 1/1000000)))) ∧
    (∀ lw rw : Landmark, rw.x = lw.x → rw.x - lw.x + 1/1000000 ≠ 0) ∧
    compute_steer left_wrist_demo right_wrist_demo = -(200000/400001) ∧
    |compute_steer left_wrist_demo right_wrist_demo + 1/2| < 1/100000 ∧
    (∀ (s : ControllerState) (lh rh : Hand), s.left_shift_active = true →
      (process_two_hands s lh rh).steer = compute_steer (lh 0) (rh 0)) := by
  refine ⟨fun lw rw => rfl, ?_, ?_, ?_, ?_⟩
  · intro lw rw hx
    rw [hx]
    norm_num
  · norm_num [compute_steer, left_wrist_demo, right_wrist_demo]
  · norm_num [compute_steer, left_wrist_demo, right_wrist_demo, abs_lt]
  · intro s lh rh hls
    rw [process_two_hands_steer, hls]
    simp

theorem c8_steer_slope_amended_witness :
    right_wrist_demo.x = right_wrist_demo.x ∧
    right_wrist_demo.x - right_wrist_demo.x + 1/1000000 ≠ 0 ∧
    s_left_shift.left_shift_active = true ∧
    (process_two_hands s_left_shift index_only_hand open_hand).steer
      = compute_steer (index_only_hand 0) (open_hand 0) :=
  ⟨rfl, c8_steer_slope_amended.2.1 right_wrist_demo right_wrist_demo rfl, rfl,
    c8_steer_slope_amended.2.2.2.2 s_left_shift index_only_hand open_hand rfl⟩

/-- C9 (confirmed): map border interpolation equals the from-map
border at progress 0, the to-map border at progress 1, and is
monotonic in the progress value in between (non-decreasing when the
to-border is to the right of the from-border, non-increasing
otherwise). -/
theorem c9_border_interpolation (f t : ℤ) :
    apply_interpolated_border f t 0 = f ∧
    apply_interpolated_border f t 1 = t ∧
    ∀ p q : ℚ, p ≤ q →
      (f ≤ t →
        apply_interpolated_border f t p ≤ apply_interpolated_border f t q) ∧
      (t ≤ f →
        apply_interpolated_border f t q ≤ apply_interpolated_border f t p) := by
  refine ⟨?_, ?_, ?_⟩
  · unfold apply_interpolated_border
    norm_num [pyInt_intCast]
  · unfold apply_interpolated_border
    ring_nf
    norm_num [pyInt_intCast]
  · intro p q hpq
    have hb : max (0 : ℚ) (min 1 p) ≤ max 0 (min 1 q) :=
      max_le_max (le_refl 0) (min_le_min (le_refl 1) hpq)
    constructor
    · intro hft
      unfold apply_interpolated_border
      apply pyInt_mono
      have hnn : (0 : ℚ) ≤ (t : ℤ) - (f : ℤ) := by
        have hc : ((f : ℤ) : ℚ) ≤ ((t : ℤ) : ℚ) := by exact_mod_cast hft
        linarith
      exact add_le_add_left (mul_le_mul_of_nonneg_left hb hnn) _
    · intro htf
      unfold apply_interpolated_border
      apply pyInt_mono
      have hnp : ((t : ℤ) : ℚ) - ((f : ℤ) : ℚ) ≤ 0 := by
        have hc : ((t : ℤ) : ℚ) ≤ ((f : ℤ) : ℚ) := by exact_mod_cast htf
        linarith
      exact add_le_add_left (mul_le_mul_of_nonpos_left hb hnp) _

theorem c9_border_interpolation_witness :
    ((1 : ℚ)/4 ≤ 1/2) ∧ ((2 : ℤ) ≤ 7) ∧
    apply_interpolated_border 2 7 (1/4) ≤ apply_interpolated_border 2 7 (1/2) :=
  ⟨by norm_num, by decide,
    ((c9_border_interpolation 2 7).2.2 (1/4) (1/2) (by norm_num)).1 (by decide)⟩

/-- C10 (confirmed): in two-hand driving, braking and non-zero
steering are mutually exclusive — whenever the frame leaves the
braking flag set, the published steer value is exactly 0, regardless
of the wrist slope. -/
theorem c10_brake_zero_steer (s : ControllerState) (lh rh : Hand)
    (h : (process_two_hands s lh rh).breaking = true) :
    (process_two_hands s lh rh).steer = 0 := by
  rw [process_two_hands_breaking] at h
  rw [process_two_hands_steer, h]
  simp

theorem c10_brake_zero_steer_witness :
    (process_two_hands initial_controller open_hand open_hand).breaking = true ∧
    (process_two_hands initial_controller open_hand open_hand).steer = 0 :=
  ⟨rfl, c10_brake_zero_steer initial_controller open_hand open_hand rfl⟩

end Racing
